import Mathlib

/-!
Verification development for the llm-rag repository.

Shallow embedding of the RAG request pipeline: the stream adapter of
`src/llm/llamaAdapter.js` (`ChatLlamaCpp._streamResponseChunks`), the chat
handler of `src/chat/chatHandler.js`, the SSE controller of
`src/chat/chat.controller.ts`, the initialization coordinator of
`src/rag/rag.service.ts`, the vector-store helpers of
`src/rag/vectorStore.js`, and the health controller.
-/

set_option autoImplicit false

namespace LlmRag

/-! ### Stream Adapter (`ChatLlamaCpp._streamResponseChunks`, llamaAdapter.js lines 97-151)

The producer (`chatSession.completePrompt`) pushes text chunks through the
`onTextChunk` callback into `chunkQueue`; its `.then` handler sets
`isComplete`, its `.catch` handler records `streamingError` and sets
`isComplete`.  The consumer loop runs while `!isComplete ||
chunkQueue.length > 0`, shifting and yielding queued chunks, and otherwise
waiting.  After the loop, a recorded error is rethrown wrapped as
`Streaming error: <message>`.  We model a run as an arbitrary interleaving
of producer-event deliveries and consumer steps. -/

/-- One event of the producer: an `onTextChunk` callback invocation, a
successful resolution (`.then` handler), or a rejection (`.catch` handler). -/
inductive ProdEvent where
  | push (chunk : String)
  | complete
  | fail (msg : String)
deriving DecidableEq, Repr

/-- The terminating event of a producer with the given failure
(`none` = resolves, `some msg` = rejects with `msg`). -/
def termEvent : Option String → ProdEvent
  | none => ProdEvent.complete
  | some m => ProdEvent.fail m

/-- The full ordered event sequence of a producer that pushes `pushes` via
`onTextChunk` and then terminates: callbacks fire strictly before the
promise settles. -/
def prodTrace (pushes : List String) (failure : Option String) : List ProdEvent :=
  pushes.map ProdEvent.push ++ [termEvent failure]

/-- State of `_streamResponseChunks` mid-run: the queue, the undelivered
producer events, the two flags, and the chunks yielded to the consumer so
far. -/
structure AdapterState where
  chunkQueue : List String
  pending : List ProdEvent
  isComplete : Bool
  streamingError : Option String
  yielded : List String
deriving DecidableEq, Repr

/-- Which side runs next in the interleaving. -/
inductive Sched where
  | prod
  | cons
deriving DecidableEq, Repr

/-- Initial adapter state for a given producer. -/
def adapterInit (pushes : List String) (failure : Option String) : AdapterState :=
  { chunkQueue := [], pending := prodTrace pushes failure,
    isComplete := false, streamingError := none, yielded := [] }

/-- One scheduling step.  A producer step delivers the next pending event
(`onTextChunk` appends to the queue; settlement sets the flags).  A
consumer step shifts the queue head and yields it, or, with an empty queue
and the producer not complete, performs the 10ms wait (a no-op here). -/
def adapterStep (s : AdapterState) : Sched → AdapterState
  | Sched.prod =>
    match s.pending with
    | [] => s
    | ProdEvent.push c :: rest =>
      { s with chunkQueue := s.chunkQueue ++ [c], pending := rest }
    | ProdEvent.complete :: rest =>
      { s with isComplete := true, pending := rest }
    | ProdEvent.fail m :: rest =>
      { s with streamingError := some m, isComplete := true, pending := rest }
  | Sched.cons =>
    match s.chunkQueue with
    | c :: rest => { s with chunkQueue := rest, yielded := s.yielded ++ [c] }
    | [] => s

/-- Run the adapter under a schedule. -/
def adapterRun (s : AdapterState) (sch : List Sched) : AdapterState :=
  sch.foldl adapterStep s

/-- The loop `while (!isComplete || chunkQueue.length > 0)` has exited. -/
def adapterFinished (s : AdapterState) : Bool :=
  s.isComplete && s.chunkQueue.isEmpty

/-- After the loop, `if (streamingError) throw new Error(...)`: the error
the consumer observes, already wrapped in the human-readable message. -/
def adapterResult (s : AdapterState) : Option String :=
  s.streamingError.map (fun m => "Streaming error: " ++ m)

/-- The chunks still to be pushed among the undelivered producer events. -/
def pendingPushes : List ProdEvent → List String
  | [] => []
  | ProdEvent.push c :: rest => c :: pendingPushes rest
  | ProdEvent.complete :: rest => pendingPushes rest
  | ProdEvent.fail _ :: rest => pendingPushes rest

/-- Run invariant: yielded, queued and still-unpushed chunks concatenate to
the producer's full push list, and the flags mirror whether the terminal
producer event has been delivered (it is delivered last). -/
def AdapterInv (pushes : List String) (failure : Option String)
    (s : AdapterState) : Prop :=
  s.yielded ++ s.chunkQueue ++ pendingPushes s.pending = pushes ∧
    ((s.isComplete = false ∧ s.streamingError = none ∧
        s.pending = (pendingPushes s.pending).map ProdEvent.push ++ [termEvent failure]) ∨
      (s.isComplete = true ∧ s.pending = [] ∧ s.streamingError = failure))

theorem pendingPushes_trace (pushes : List String) (failure : Option String) :
    pendingPushes (prodTrace pushes failure) = pushes := by
  induction pushes with
  | nil => cases failure <;> simp [prodTrace, termEvent, pendingPushes]
  | cons c cs ih =>
    simpa [prodTrace, pendingPushes] using ih

theorem pendingPushes_pushes (cs : List String) (failure : Option String) :
    pendingPushes (cs.map ProdEvent.push ++ [termEvent failure]) = cs := by
  simpa [prodTrace] using pendingPushes_trace cs failure

theorem adapterInit_inv (pushes : List String) (failure : Option String) :
    AdapterInv pushes failure (adapterInit pushes failure) := by
  refine ⟨by simp [adapterInit, pendingPushes_trace], Or.inl ⟨rfl, rfl, ?_⟩⟩
  simp [adapterInit, prodTrace, pendingPushes_pushes]

theorem adapterStep_inv (pushes : List String) (failure : Option String)
    (s : AdapterState) (h : AdapterInv pushes failure s) (a : Sched) :
    AdapterInv pushes failure (adapterStep s a) := by
  obtain ⟨hsum, hflag⟩ := h
  cases a with
  | cons =>
    cases hq : s.chunkQueue with
    | nil => simpa [adapterStep, hq] using ⟨hsum, hflag⟩
    | cons c rest =>
      refine ⟨?_, ?_⟩
      · simp only [adapterStep, hq]
        rw [hq] at hsum
        simpa [List.append_assoc] using hsum
      · simpa [adapterStep, hq] using hflag
  | prod =>
    rcases hflag with ⟨hc, he, hp⟩ | ⟨hc, hp, he⟩
    · cases hpp : pendingPushes s.pending with
      | nil =>
        rw [hpp] at hp
        cases failure with
        | none =>
          simp [termEvent] at hp
          refine ⟨?_, Or.inr ⟨?_, ?_, ?_⟩⟩ <;>
            simp [adapterStep, hp, pendingPushes, termEvent, he] at hsum ⊢ <;>
            simpa [hpp] using hsum
        | some m =>
          simp [termEvent] at hp
          refine ⟨?_, Or.inr ⟨?_, ?_, ?_⟩⟩ <;>
            simp [adapterStep, hp, pendingPushes, termEvent, he] at hsum ⊢ <;>
            simpa [hpp] using hsum
      | cons c cs =>
        rw [hpp] at hp
        have hp' : s.pending = ProdEvent.push c :: (cs.map ProdEvent.push ++ [termEvent failure]) := by
          simpa using hp
        have hcs := pendingPushes_pushes cs failure
        refine ⟨?_, Or.inl ⟨?_, ?_, ?_⟩⟩
        · simp only [adapterStep, hp']
          rw [hp', pendingPushes, pendingPushes_pushes] at hsum
          rw [pendingPushes_pushes, ← hsum]
          simp [List.append_assoc]
        · simpa [adapterStep, hp'] using hc
        · simpa [adapterStep, hp'] using he
        · simp only [adapterStep, hp']
          rw [hcs]
    · refine ⟨?_, Or.inr ⟨?_, ?_, ?_⟩⟩ <;> simp [adapterStep, hp, hc, he] at hsum ⊢ <;> exact hsum

theorem adapterRun_inv (pushes : List String) (failure : Option String)
    (sch : List Sched) (s : AdapterState) (h : AdapterInv pushes failure s) :
    AdapterInv pushes failure (adapterRun s sch) := by
  induction sch generalizing s with
  | nil => exact h
  | cons a rest ih =>
    exact ih (adapterStep s a) (adapterStep_inv pushes failure s h a)

/-- Any finished run of the adapter has yielded exactly the producer's
pushes, in order, and recorded exactly the producer's failure. -/
theorem adapter_final (pushes : List String) (failure : Option String)
    (sch : List Sched)
    (hfin : adapterFinished (adapterRun (adapterInit pushes failure) sch) = true) :
    (adapterRun (adapterInit pushes failure) sch).yielded = pushes ∧
      (adapterRun (adapterInit pushes failure) sch).streamingError = failure := by
  have hinv := adapterRun_inv pushes failure sch _ (adapterInit_inv pushes failure)
  obtain ⟨hsum, hflag⟩ := hinv
  simp only [adapterFinished, Bool.and_eq_true, List.isEmpty_iff] at hfin
  rcases hflag with ⟨hc, _, _⟩ | ⟨_, hp, he⟩
  · rw [hc] at hfin; simp at hfin
  · refine ⟨?_, he⟩
    rw [hfin.2, hp] at hsum
    simpa [pendingPushes] using hsum

/-! ### Chat handler (`ChatHandler.generateResponse`, chatHandler.js lines 8-56)

`generateResponse(query, topK)` retrieves `topK` documents, builds the
labeled context block, assembles the system prompt and the user message,
and invokes the LLM.  It performs no validation of `query`.  The
collaborators (`similaritySearch`, `llm.invoke`) are passed in as pure
functions; the recorded call list is the order of external calls made. -/

/-- Closed message variant of the LangChain message roles used by the
handler and the adapter (`SystemMessage` / `HumanMessage` / `AIMessage`). -/
inductive ChatMessage where
  | system (content : String)
  | human (content : String)
  | ai (content : String)
deriving DecidableEq, Repr

/-- The label attached to the chunk at 0-based position `i` of the
retrieval result: `[Document (i+1)]` followed by a newline and the chunk
text (chatHandler.js line 28). -/
def docLabel (i : Nat) (text : String) : String :=
  "[Document " ++ toString (i + 1) ++ "]\n" ++ text

/-- `relevantDocs.map((doc, index) => ...)`: the labeled chunk texts, in
retrieval order. -/
def labeledChunks (docs : List String) : List String :=
  docs.enum.map (fun p => docLabel p.1 p.2)

/-- `relevantDocs.map((doc, index) => ...).join('\n\n')` -/
def buildContext (docs : List String) : String :=
  String.intercalate "\n\n" (labeledChunks docs)

/-- First sentence of the fixed system-prompt preamble. -/
def preambleIntro : String :=
  "You are a helpful assistant. Use the following context to answer the user\x27s question. "

/-- The preamble sentence instructing the model to fall back to general
knowledge when the context is unhelpful. -/
def generalKnowledgeFallback : String :=
  "If the context doesn\x27t contain relevant information, use your knowledge to provide a helpful response."

def contextHeader : String := "\n\nContext:\n"

def promptClose : String := "\n\nAnswer the user\x27s question based on the context provided above."

/-- The system prompt template literal of chatHandler.js lines 32-37,
with the context block spliced in. -/
def systemPrompt (context : String) : String :=
  preambleIntro ++ generalKnowledgeFallback ++ contextHeader ++ context ++ promptClose

/-- An external call made by the pipeline: a similarity search against the
vector store, or an LLM invocation. -/
inductive RagCall where
  | retrieve (query : String) (topK : Int)
  | generate (messages : List ChatMessage)
deriving DecidableEq, Repr

/-- Result of one `generateResponse` run: the external calls in order, and
the returned (or thrown) value. -/
structure GenRun where
  calls : List RagCall
  result : Except String String
deriving Repr

/-- `ChatHandler.generateResponse` (chatHandler.js lines 20-55).  Note the
source performs no validation of `query`: retrieval runs unconditionally. -/
def generateResponse (search : String → Int → List String)
    (invoke : List ChatMessage → String) (query : String) (topK : Int) : GenRun :=
  let relevantDocs := search query topK
  let context := buildContext relevantDocs
  let messages := [ChatMessage.system (systemPrompt context), ChatMessage.human query]
  { calls := [RagCall.retrieve query topK, RagCall.generate messages],
    result := Except.ok (invoke messages) }

/-! ### SSE controller (`ChatController.streamChat`, chat.controller.ts lines 14-57) -/

/-- The JavaScript values `body.query` can take after JSON parsing. -/
inductive JsVal where
  | vstr (s : String)
  | vnum (n : Int)
  | vnull
  | vundef
deriving DecidableEq, Repr

/-- JavaScript `String.prototype.trim`: strip whitespace from both ends,
written over the character list so proofs can evaluate it. -/
def jsTrim (s : String) : String :=
  String.mk (((s.data.dropWhile Char.isWhitespace).reverse.dropWhile
    Char.isWhitespace).reverse)

/-- `!query || typeof query !== 'string' || query.trim() === ''`
(chat.controller.ts line 19).  For a string, `!query` is emptiness and the
trim test catches whitespace; every non-string fails the `typeof` test
(or already the truthiness test). -/
def streamChatInvalid : JsVal → Bool
  | JsVal.vstr s => s == "" || jsTrim s == ""
  | _ => true

def invalidQueryMessage : String := "Query is required and must be a non-empty string"

def streamCompletedMessage : String := "Stream completed"

/-- A framed SSE payload: `{type: chunk}`, `{type: done}` or `{type: error}`. -/
inductive SseEvent where
  | chunk (content : String)
  | done (message : String)
  | error (message : String)
deriving DecidableEq, Repr

def SseEvent.isTerminal : SseEvent → Bool
  | SseEvent.chunk _ => false
  | SseEvent.done _ => true
  | SseEvent.error _ => true

/-- What iterating `chatHandler.streamResponse(query, k)` produced: the
chunks yielded before the iteration ended, and `some msg` when it ended by
throwing an error with message `msg` (after those chunks). -/
structure IterTrace where
  chunks : List String
  failure : Option String
deriving DecidableEq, Repr

/-- The event sequence `streamChat` pushes to the observer: the invalid
branch emits one error event and completes; otherwise each yielded chunk
becomes a chunk event, then either the done event or — from the `catch`
block — an error event carrying the error message, and the observer is
completed (chat.controller.ts lines 19-56). -/
def streamChatEvents (query : JsVal) (trace : IterTrace) : List SseEvent :=
  if streamChatInvalid query then
    [SseEvent.error invalidQueryMessage]
  else
    trace.chunks.map SseEvent.chunk ++
      [match trace.failure with
        | none => SseEvent.done streamCompletedMessage
        | some m => SseEvent.error m]

/-- The iteration trace the stream adapter delivers to its consumer under
a finished schedule: the yielded chunks, then the wrapped streaming error
if one was recorded. -/
def adapterTrace (pushes : List String) (failure : Option String)
    (sch : List Sched) : IterTrace :=
  { chunks := (adapterRun (adapterInit pushes failure) sch).yielded,
    failure := adapterResult (adapterRun (adapterInit pushes failure) sch) }

/-- Transport events for a request whose generation is served by the
stream adapter. -/
def pipelineEvents (query : JsVal) (pushes : List String)
    (failure : Option String) (sch : List Sched) : List SseEvent :=
  streamChatEvents query (adapterTrace pushes failure sch)

/-- The methods the `ChatHandler` class of chatHandler.js actually
defines (lines 8-56): a constructor and `generateResponse` only. -/
def chatHandlerMethods : List String := ["constructor", "generateResponse"]

/-- Whether `chatHandler.streamResponse` — the method the controller
iterates at chat.controller.ts line 35 — exists on the handler. -/
def streamResponseDefined : Bool := chatHandlerMethods.contains "streamResponse"

/-- The knowledge base of the end-to-end scenario. -/
def scenarioKnowledgeBase : List String := ["Paris is the capital of France."]

/-- The query of the end-to-end scenario. -/
def scenarioQuery : String := "What is the capital of France?"

/-- A retrieval stub returning the scenario knowledge base. -/
def stubSearch : String → Int → List String := fun _ _ => scenarioKnowledgeBase

/-- A generator stub echoing the scenario answer. -/
def stubInvoke : List ChatMessage → String := fun _ => "Paris"

/-- The iteration trace of the end-to-end scenario (knowledge base
`["Paris is the capital of France."]`, stub generator echoing `"Paris"`):
were `streamResponse` defined it would yield the stub's token, but calling
an undefined member throws a `TypeError` before any chunk is yielded. -/
def scenarioTrace : IterTrace :=
  if streamResponseDefined then { chunks := ["Paris"], failure := none }
  else { chunks := [], failure := some "chatHandler.streamResponse is not a function" }

/-! ### Top-K resolution (chat.controller.ts line 32, rag.service.ts lines 41, 196-199) -/

/-- `parseInt` on the decimal strings this configuration uses, written
over the character list so proofs can evaluate it; `none` models `NaN`
(a string with no leading digits). -/
def parseIntEnv (s : String) : Option Nat :=
  match s.data.takeWhile Char.isDigit with
  | [] => none
  | ds => some (ds.foldl (fun n c => n * 10 + (c.toNat - 48)) 0)

/-- `parseInt(process.env.TOP_K || '3')` (rag.service.ts line 41), the
value `getTopK()` returns.  `none` for the environment variable models it
being unset; an empty string is falsy and also falls back to `'3'`. -/
def configTopK (envTopK : Option String) : Option Nat :=
  parseIntEnv (match envTopK with
    | none => "3"
    | some s => if s == "" then "3" else s)

/-- `const k = topK || this.ragService.getTopK()` (chat.controller.ts
line 32).  `none` models an omitted, `undefined` or `null` request field
(all falsy); the number `0` is falsy too and is replaced by the default. -/
def effectiveTopK (reqTopK : Option Int) (defaultK : Int) : Int :=
  match reqTopK with
  | none => defaultK
  | some k => if k = 0 then defaultK else k

/-! ### Initialization coordinator (`RagService`, rag.service.ts)

`RagService` holds `llm`, `vectorStore`, `chatHandler` (all `null` until
set), the `isInitialized` flag and the `initializationPromise` handle.
`initialize()` runs synchronously from its entry to the `await` (the event
loop admits no interleaving there), so each call is one atomic action on
this state; `_doInitialize` is the body of the single in-flight promise.
Handles carry no data the claims need, so they are modelled as
`Option Unit`; promise identity is a `Nat`. -/

structure RagState where
  llm : Option Unit
  vectorStore : Option Unit
  chatHandler : Option Unit
  isInitialized : Bool
  initializationPromise : Option Nat
deriving DecidableEq, Repr

/-- Field values set by the constructor (rag.service.ts lines 22-26). -/
def initialRagState : RagState :=
  { llm := none, vectorStore := none, chatHandler := none,
    isInitialized := false, initializationPromise := none }

/-- What a call to `initialize()` does besides updating state: return at
once, await an existing in-flight promise, or create and await a new one. -/
inductive InitAction where
  | immediate
  | attach (p : Nat)
  | start (p : Nat)
deriving DecidableEq, Repr

/-- `RagService.initialize` (rag.service.ts lines 50-64): return if
`isInitialized`; join `initializationPromise` if set; otherwise store a
fresh promise running `_doInitialize` and await it. -/
def serviceInitialize (s : RagState) (fresh : Nat) : RagState × InitAction :=
  if s.isInitialized then (s, InitAction.immediate)
  else
    match s.initializationPromise with
    | some p => (s, InitAction.attach p)
    | none => ({ s with initializationPromise := some fresh }, InitAction.start fresh)

/-- A burst of `initialize()` calls, each given a fresh promise id, with
no completion of the in-flight operation in between (i.e. all issued
before the first completes). -/
def initBurst (s : RagState) : List Nat → RagState × List InitAction
  | [] => (s, [])
  | f :: fs =>
    let r := serviceInitialize s f
    let rest := initBurst r.1 fs
    (rest.1, r.2 :: rest.2)

/-- Success/failure of each awaited step of `_doInitialize`, plus the
facts about the filesystem it consults.  `loadOk = false` models an
existing but corrupt/unreadable index (a rejecting `FaissStore.load`).
`docsLoadOk`/`docCount` describe `loadAndProcessDocuments` (documentLoader.js,
whose body is outside the RAG core; per the spec a document-read failure
is fatal to the attempt). -/
structure InitEnv where
  modelLoadOk : Bool
  embeddingsOk : Bool
  indexFileExists : Bool
  loadOk : Bool
  docsLoadOk : Bool
  docCount : Nat
  buildOk : Bool
deriving DecidableEq, Repr

/-- The step of `_doInitialize` at which an attempt failed. -/
inductive InitStep where
  | loadLlmModel
  | loadEmbeddings
  | loadVectorStore
  | loadDocuments
  | buildVectorStore
deriving DecidableEq, Repr

/-- `RagService._doInitialize` (rag.service.ts lines 66-171).  Step 1
loads the model and sets `this.llm`; step 2 loads embeddings; step 3
loads the index when `faiss.index` exists (an error there propagates to
the `catch`), else builds from documents when any were loaded, else
creates an empty store; step 4 sets `this.chatHandler` and then
`this.isInitialized = true`.  The `catch` block clears
`initializationPromise` and rethrows; it resets nothing else — in
particular a successful run leaves `initializationPromise` set. -/
def doInitialize (env : InitEnv) (s : RagState) : RagState × Except InitStep Unit :=
  if env.modelLoadOk = false then
    ({ s with initializationPromise := none }, Except.error InitStep.loadLlmModel)
  else
    let s1 := { s with llm := some () }
    if env.embeddingsOk = false then
      ({ s1 with initializationPromise := none }, Except.error InitStep.loadEmbeddings)
    else if env.indexFileExists then
      if env.loadOk then
        ({ s1 with vectorStore := some (), chatHandler := some (), isInitialized := true },
          Except.ok ())
      else
        ({ s1 with initializationPromise := none }, Except.error InitStep.loadVectorStore)
    else if env.docsLoadOk = false then
      ({ s1 with initializationPromise := none }, Except.error InitStep.loadDocuments)
    else if 0 < env.docCount then
      if env.buildOk then
        ({ s1 with vectorStore := some (), chatHandler := some (), isInitialized := true },
          Except.ok ())
      else
        ({ s1 with initializationPromise := none }, Except.error InitStep.buildVectorStore)
    else
      ({ s1 with vectorStore := some (), chatHandler := some (), isInitialized := true },
        Except.ok ())

/-- `RagService.isReady` (rag.service.ts lines 190-192). -/
def isReady (s : RagState) : Bool :=
  s.isInitialized && s.llm.isSome && s.vectorStore.isSome

/-- The `rag` object of the health endpoint's JSON body. -/
structure HealthReport where
  initialized : Bool
  ready : Bool
deriving DecidableEq, Repr

/-- `HealthController.checkHealth` (health.controller.ts lines 10-32):
`{initialized: true, ready: true}` when `isReady()`, otherwise
`{initialized: false, ready: false}`. -/
def checkHealth (s : RagState) : HealthReport :=
  if isReady s then { initialized := true, ready := true }
  else { initialized := false, ready := false }

/-- Service states reachable from the constructor state through
`initialize()` entries and `_doInitialize` completions. -/
inductive ReachableRagState : RagState → Prop where
  | init : ReachableRagState initialRagState
  | stepInitialize (s : RagState) (f : Nat) :
      ReachableRagState s → ReachableRagState (serviceInitialize s f).1
  | stepDoInitialize (s : RagState) (env : InitEnv) :
      ReachableRagState s → ReachableRagState (doInitialize env s).1

/-! ### Vector-store load path (vectorStore.js lines 11-38, rag.service.ts lines 112-160) -/

/-- How a load attempt is signalled to the caller deciding what to build. -/
inductive LoadSignal where
  | loaded
  | absent
  | fatal
deriving DecidableEq, Repr

/-- The initialization path's load signalling (rag.service.ts lines
112-160): a missing `faiss.index` is detected by `fs.existsSync` and
treated as absent; when the file exists, `FaissStore.load` is called with
no guard, so a corrupt/unreadable index rejects the whole attempt. -/
def loadPathSignal (indexFileExists loadOk : Bool) : LoadSignal :=
  if indexFileExists then
    (if loadOk then LoadSignal.loaded else LoadSignal.fatal)
  else LoadSignal.absent

/-- Modelled from the spec: the claimed load signalling, under which a
missing or unreadable/corrupt location is signalled as the distinguishable
absent condition rather than a fatal error. -/
def claimedLoadSignal (indexFileExists loadOk : Bool) : LoadSignal :=
  if indexFileExists && loadOk then LoadSignal.loaded else LoadSignal.absent

/-- What `initializeVectorStore` ends up returning. -/
inductive StoreInitOutcome where
  | loadedExisting
  | createdNewEmpty
deriving DecidableEq, Repr

/-- `initializeVectorStore` (vectorStore.js lines 11-38): if the path
exists it tries `FaissStore.load` and catches any load error, falling
through to create a new empty store; a missing path also creates a new
empty store. -/
def initializeVectorStore (pathExists loadOk : Bool) : StoreInitOutcome :=
  if pathExists then
    (if loadOk then StoreInitOutcome.loadedExisting else StoreInitOutcome.createdNewEmpty)
  else StoreInitOutcome.createdNewEmpty

/-! ### Helper lemmas -/

/-- The whole-response text `_generate` would return for a deterministic
producer whose streamed fragments are `pushes`: the full response is the
concatenation of the fragments reported through `onTextChunk`. -/
def oneShotResponse (pushes : List String) : String := String.join pushes

/-- An environment in which every initialization step succeeds by loading
the existing index. -/
def envAllOk : InitEnv :=
  { modelLoadOk := true, embeddingsOk := true, indexFileExists := true,
    loadOk := true, docsLoadOk := true, docCount := 1, buildOk := true }

/-- An environment in which `loadModel` fails at step 1. -/
def envModelLoadFails : InitEnv :=
  { modelLoadOk := false, embeddingsOk := true, indexFileExists := false,
    loadOk := true, docsLoadOk := true, docCount := 0, buildOk := true }

/-- An environment in which `faiss.index` exists but is corrupt:
`FaissStore.load` rejects. -/
def envCorruptIndex : InitEnv :=
  { modelLoadOk := true, embeddingsOk := true, indexFileExists := true,
    loadOk := false, docsLoadOk := true, docCount := 5, buildOk := true }

theorem initBurst_attach (p : Nat) (s : RagState) (h1 : s.isInitialized = false)
    (h2 : s.initializationPromise = some p) (fs : List Nat) :
    initBurst s fs = (s, fs.map fun _ => InitAction.attach p) := by
  induction fs with
  | nil => simp [initBurst]
  | cons f fs ih => simp [initBurst, serviceInitialize, h1, h2, ih]

theorem initBurst_ready (s : RagState) (h : s.isInitialized = true) (fs : List Nat) :
    initBurst s fs = (s, fs.map fun _ => InitAction.immediate) := by
  induction fs with
  | nil => simp [initBurst]
  | cons f fs ih => simp [initBurst, serviceInitialize, h, ih]

theorem doInitialize_error_promise (env : InitEnv) (s : RagState) (e : InitStep)
    (h : (doInitialize env s).2 = Except.error e) :
    (doInitialize env s).1.initializationPromise = none ∧
      (doInitialize env s).1.isInitialized = s.isInitialized := by
  rcases env with ⟨m, em, ix, lo, dk, dc, b⟩
  cases m <;> cases em <;> cases ix <;> cases lo <;> cases dk <;> cases b <;>
    by_cases hdc : 0 < dc <;> simp_all [doInitialize]

theorem doInitialize_ok_ready (env : InitEnv) (s : RagState)
    (h : (doInitialize env s).2 = Except.ok ()) :
    isReady (doInitialize env s).1 = true ∧
      (doInitialize env s).1.chatHandler = some () := by
  rcases env with ⟨m, em, ix, lo, dk, dc, b⟩
  cases m <;> cases em <;> cases ix <;> cases lo <;> cases dk <;> cases b <;>
    by_cases hdc : 0 < dc <;> simp_all [doInitialize, isReady]

/-- The readiness invariant: once `isInitialized` is set, all three
handles are non-null. -/
def ragComponentsInv (s : RagState) : Prop :=
  s.isInitialized = true →
    s.llm = some () ∧ s.vectorStore = some () ∧ s.chatHandler = some ()

theorem ragComponentsInv_initialize (s : RagState) (f : Nat)
    (h : ragComponentsInv s) : ragComponentsInv (serviceInitialize s f).1 := by
  cases hb : s.isInitialized <;>
    cases hp : s.initializationPromise <;>
    simp_all [serviceInitialize, ragComponentsInv]

theorem ragComponentsInv_doInitialize (env : InitEnv) (s : RagState)
    (h : ragComponentsInv s) : ragComponentsInv (doInitialize env s).1 := by
  rcases env with ⟨m, em, ix, lo, dk, dc, b⟩
  cases m <;> cases em <;> cases ix <;> cases lo <;> cases dk <;> cases b <;>
    by_cases hdc : 0 < dc <;> simp_all [doInitialize, ragComponentsInv]

theorem reachable_ragComponentsInv (s : RagState) (h : ReachableRagState s) :
    ragComponentsInv s := by
  induction h with
  | init => intro hc; simp [initialRagState] at hc
  | stepInitialize s f _ ih => exact ragComponentsInv_initialize s f ih
  | stepDoInitialize s env _ ih => exact ragComponentsInv_doInitialize env s ih

theorem enumFromLabel_getElem (docs : List String) :
    ∀ n i : Nat, (h : i < docs.length) →
      ((docs.enumFrom n).map (fun p => docLabel p.1 p.2))[i]? =
        some (docLabel (n + i) docs[i]) := by
  induction docs with
  | nil => intro n i h; simp at h
  | cons d ds ih =>
    intro n i h
    cases i with
    | zero => simp [List.enumFrom]
    | succ j =>
      have hj : j < ds.length := Nat.lt_of_succ_lt_succ h
      have h2 := ih (n + 1) j hj
      have hn : n + 1 + j = n + (j + 1) := by omega
      rw [hn] at h2
      simpa [List.enumFrom] using h2

theorem labeledChunks_getElem (docs : List String) (i : Nat) (h : i < docs.length) :
    (labeledChunks docs)[i]? = some ("[Document " ++ toString (i + 1) ++ "]\n" ++ docs[i]) := by
  have := enumFromLabel_getElem docs 0 i h
  simpa [labeledChunks, List.enum, docLabel] using this

/-! ### Claim theorems -/

/-- Claim C1: for every burst of `initialize()` calls issued from the
uninitialized state before the first completes, exactly one call starts
the underlying `_doInitialize` promise, every later call attaches to that
same promise (so all callers share its single outcome), only one promise
handle is ever stored, and calls made once the state is ready return
immediately without starting any work. -/
theorem initialize_single_flight (s : RagState) (f : Nat) (rest : List Nat)
    (h1 : s.isInitialized = false) (h2 : s.initializationPromise = none) :
    (initBurst s (f :: rest)).2 =
        InitAction.start f :: rest.map (fun _ => InitAction.attach f) ∧
      (initBurst s (f :: rest)).1 = { s with initializationPromise := some f } ∧
      (∀ s2 : RagState, s2.isInitialized = true →
        ∀ fs : List Nat, initBurst s2 fs = (s2, fs.map fun _ => InitAction.immediate)) := by
  have hstep : serviceInitialize s f =
      ({ s with initializationPromise := some f }, InitAction.start f) := by
    simp [serviceInitialize, h1, h2]
  have hrest := initBurst_attach f { s with initializationPromise := some f }
    (by simpa using h1) (by simp) rest
  refine ⟨?_, ?_, fun s2 hs2 fs => initBurst_ready s2 hs2 fs⟩
  · simp [initBurst, hstep, hrest]
  · simp [initBurst, hstep, hrest]

theorem initialize_single_flight_witness :
    (initBurst initialRagState [1, 2, 3]).2 =
      [InitAction.start 1, InitAction.attach 1, InitAction.attach 1] :=
  (initialize_single_flight initialRagState 1 [2, 3] rfl rfl).1

/-- Claim C4: if any step of `_doInitialize` fails, the promise handle is
cleared and the ready flag stays false (so the state is again
uninitialized and not ready), the attempt's outcome is the rethrown
error, and a subsequent `initialize()` call stores a fresh promise and
starts a brand-new attempt. -/
theorem initialization_failure_resets (env : InitEnv) (s : RagState) (e : InitStep)
    (h0 : s.isInitialized = false)
    (h : (doInitialize env s).2 = Except.error e) :
    (doInitialize env s).1.initializationPromise = none ∧
      (doInitialize env s).1.isInitialized = false ∧
      isReady (doInitialize env s).1 = false ∧
      (∀ f : Nat, serviceInitialize (doInitialize env s).1 f =
        ({ (doInitialize env s).1 with initializationPromise := some f },
          InitAction.start f)) := by
  obtain ⟨hp, hi⟩ := doInitialize_error_promise env s e h
  rw [h0] at hi
  refine ⟨hp, hi, ?_, ?_⟩
  · simp [isReady, hi]
  · intro f
    simp [serviceInitialize, hi, hp]

theorem initialization_failure_resets_witness :
    (doInitialize envModelLoadFails initialRagState).1.initializationPromise = none ∧
      (doInitialize envModelLoadFails initialRagState).1.isInitialized = false ∧
      serviceInitialize (doInitialize envModelLoadFails initialRagState).1 7 =
        ({ (doInitialize envModelLoadFails initialRagState).1 with
            initializationPromise := some 7 }, InitAction.start 7) := by
  have h := initialization_failure_resets envModelLoadFails initialRagState
    InitStep.loadLlmModel rfl rfl
  exact ⟨h.1, h.2.1, h.2.2.2 7⟩

/-- Claim C9: in every reachable service state, `isReady()` returning
true implies the llm, the vector store and the chat handler are all
non-null; the health endpoint reports only the pairs
`{initialized: true, ready: true}` and `{initialized: false, ready:
false}`, the former exactly after a successful initialization and the
latter before one and after a failed attempt. -/
theorem readiness_reporting (s : RagState) (h : ReachableRagState s) :
    (isReady s = true →
        s.llm = some () ∧ s.vectorStore = some () ∧ s.chatHandler = some ()) ∧
      (checkHealth s = { initialized := true, ready := true } ∨
        checkHealth s = { initialized := false, ready := false }) ∧
      (∀ env : InitEnv, ∀ e : InitStep, s.isInitialized = false →
        (doInitialize env s).2 = Except.error e →
        checkHealth (doInitialize env s).1 = { initialized := false, ready := false }) ∧
      (∀ env : InitEnv, (doInitialize env s).2 = Except.ok () →
        checkHealth (doInitialize env s).1 = { initialized := true, ready := true }) := by
  refine ⟨?_, ?_, ?_, ?_⟩
  · intro hr
    have hinv := reachable_ragComponentsInv s h
    simp only [isReady, Bool.and_eq_true] at hr
    obtain ⟨hll, hvs, hch⟩ := hinv hr.1.1
    exact ⟨hll, hvs, hch⟩
  · by_cases hr : isReady s = true
    · exact Or.inl (by simp [checkHealth, hr])
    · exact Or.inr (by simp [checkHealth, hr])
  · intro env e h0 herr
    obtain ⟨_, hi⟩ := doInitialize_error_promise env s e herr
    rw [h0] at hi
    simp [checkHealth, isReady, hi]
  · intro env hok
    have hr := (doInitialize_ok_ready env s hok).1
    simp [checkHealth, hr]

theorem readiness_reporting_witness :
    checkHealth initialRagState = { initialized := false, ready := false } ∧
      checkHealth (doInitialize envAllOk initialRagState).1 =
        { initialized := true, ready := true } := by
  have h := readiness_reporting initialRagState ReachableRagState.init
  refine ⟨?_, h.2.2.2 envAllOk rfl⟩
  rcases h.2.1 with hh | hh
  · simp [checkHealth, isReady, initialRagState] at hh
  · exact hh

/-- Claim C3: under every interleaving of the producer callback and the
consumer loop that lets the loop finish, `_streamResponseChunks` yields
exactly the fragments pushed through `onTextChunk`, in push order, with
none dropped, duplicated or reordered, and their concatenation is the
whole-response text a deterministic producer returns in one shot. -/
theorem stream_adapter_ordering (pushes : List String) (sch : List Sched)
    (hfin : adapterFinished (adapterRun (adapterInit pushes none) sch) = true) :
    (adapterRun (adapterInit pushes none) sch).yielded = pushes ∧
      String.join (adapterRun (adapterInit pushes none) sch).yielded =
        oneShotResponse pushes ∧
      adapterResult (adapterRun (adapterInit pushes none) sch) = none := by
  obtain ⟨hy, he⟩ := adapter_final pushes none sch hfin
  exact ⟨hy, by rw [hy]; rfl, by simp [adapterResult, he]⟩

theorem stream_adapter_ordering_witness :
    (adapterRun (adapterInit ["The ", "capital ", "is Paris."] none)
        [Sched.prod, Sched.cons, Sched.prod, Sched.prod, Sched.prod, Sched.cons,
          Sched.cons]).yielded = ["The ", "capital ", "is Paris."] :=
  (stream_adapter_ordering ["The ", "capital ", "is Paris."]
    [Sched.prod, Sched.cons, Sched.prod, Sched.prod, Sched.prod, Sched.cons,
      Sched.cons] (by decide)).1

/-- Claim C6: every event sequence the streaming transport emits is zero
or more chunk events followed by exactly one terminal event; when the
producer completes, the terminal is the done event after one chunk event
per produced token, and when the producer fails mid-stream, the terminal
is an error event delivered after the chunk events for every token
already produced, carrying the wrapped human-readable message. -/
theorem stream_terminal_discipline (query : JsVal) (pushes : List String)
    (failure : Option String) (sch : List Sched)
    (hfin : adapterFinished (adapterRun (adapterInit pushes failure) sch) = true) :
    (∃ cs : List String, ∃ t : SseEvent, t.isTerminal = true ∧
        pipelineEvents query pushes failure sch = cs.map SseEvent.chunk ++ [t]) ∧
      (streamChatInvalid query = false → failure = none →
        pipelineEvents query pushes failure sch =
          pushes.map SseEvent.chunk ++ [SseEvent.done streamCompletedMessage]) ∧
      (streamChatInvalid query = false → ∀ m : String, failure = some m →
        pipelineEvents query pushes failure sch =
          pushes.map SseEvent.chunk ++ [SseEvent.error ("Streaming error: " ++ m)]) := by
  obtain ⟨hy, he⟩ := adapter_final pushes failure sch hfin
  by_cases hv : streamChatInvalid query = true
  · refine ⟨⟨[], SseEvent.error invalidQueryMessage, rfl, ?_⟩, ?_, ?_⟩
    · simp [pipelineEvents, streamChatEvents, hv]
    · intro hv'; rw [hv'] at hv; cases hv
    · intro hv'; rw [hv'] at hv; cases hv
  · have hv' : streamChatInvalid query = false := by
      cases hq : streamChatInvalid query
      · rfl
      · exact absurd hq hv
    cases failure with
    | none =>
      refine ⟨⟨pushes, SseEvent.done streamCompletedMessage, rfl, ?_⟩, ?_, ?_⟩
      · simp [pipelineEvents, streamChatEvents, hv', adapterTrace, hy, adapterResult, he]
      · intro _ _
        simp [pipelineEvents, streamChatEvents, hv', adapterTrace, hy, adapterResult, he]
      · intro _ m hm; cases hm
    | some m =>
      refine ⟨⟨pushes, SseEvent.error ("Streaming error: " ++ m), rfl, ?_⟩, ?_, ?_⟩
      · simp [pipelineEvents, streamChatEvents, hv', adapterTrace, hy, adapterResult, he]
      · intro _ hn; cases hn
      · intro _ m' hm
        cases hm
        simp [pipelineEvents, streamChatEvents, hv', adapterTrace, hy, adapterResult, he]

theorem stream_terminal_discipline_witness :
    pipelineEvents (JsVal.vstr "hi") ["a"] (some "boom")
        [Sched.prod, Sched.prod, Sched.cons] =
      [SseEvent.chunk "a", SseEvent.error ("Streaming error: " ++ "boom")] := by
  have h := stream_terminal_discipline (JsVal.vstr "hi") ["a"] (some "boom")
    [Sched.prod, Sched.prod, Sched.cons] (by decide)
  simpa using h.2.2 (by decide) "boom" rfl

/-- Claim C2: the end-to-end streaming scenario cannot emit the chunk and
done events the spec requires, because the `ChatHandler` class defines no
`streamResponse` method while the controller iterates
`chatHandler.streamResponse(query, k)`: the call throws and the transport
emits a single terminal error event instead. -/
theorem scenario_stream_events :
    streamResponseDefined = false ∧
      streamChatEvents (JsVal.vstr scenarioQuery) scenarioTrace =
        [SseEvent.error "chatHandler.streamResponse is not a function"] ∧
      streamChatEvents (JsVal.vstr scenarioQuery) scenarioTrace ≠
        [SseEvent.chunk "Paris", SseEvent.done streamCompletedMessage] := by
  refine ⟨by decide, by decide, by decide⟩

/-- Claim C5 counterexample: on the empty query, the whole-answer
operation `generateResponse` does not reject — it issues its retrieval
call and completes with the generated text. -/
theorem empty_query_counterexample :
    RagCall.retrieve "" 3 ∈ (generateResponse stubSearch stubInvoke "" 3).calls ∧
      (generateResponse stubSearch stubInvoke "" 3).result = Except.ok "Paris" := by
  exact ⟨by simp [generateResponse], rfl⟩

/-- Claim C5 (amended): the streaming endpoint rejects every empty,
whitespace-only or non-string query with the invalid-input error event,
before any retrieval or generation occurs (the emitted events are
independent of the iteration trace); the whole-answer
`generateResponse`, however, performs no such validation and issues its
retrieval call even for the empty query. -/
theorem invalid_query_rejection (q : JsVal) (h : streamChatInvalid q = true) :
    streamChatEvents q { chunks := [], failure := none } =
        [SseEvent.error invalidQueryMessage] ∧
      (∀ t t' : IterTrace, streamChatEvents q t = streamChatEvents q t') ∧
      (∀ s : String, q = JsVal.vstr s → jsTrim s = "") ∧
      (∀ search : String → Int → List String, ∀ invoke : List ChatMessage → String,
        ∀ k : Int, RagCall.retrieve "" k ∈ (generateResponse search invoke "" k).calls) := by
  refine ⟨by simp [streamChatEvents, h], ?_, ?_, ?_⟩
  · intro t t'
    simp [streamChatEvents, h]
  · intro s hq
    subst hq
    simp only [streamChatInvalid, Bool.or_eq_true, beq_iff_eq] at h
    rcases h with h | h
    · subst h; rfl
    · exact h
  · intro search invoke k
    simp [generateResponse]

theorem invalid_query_rejection_witness :
    streamChatEvents (JsVal.vstr "   ") { chunks := [], failure := none } =
      [SseEvent.error invalidQueryMessage] :=
  (invalid_query_rejection (JsVal.vstr "   ") (by decide)).1

/-- Claim C7: the context block concatenates the retrieved chunk texts in
retrieval (descending-similarity) order, each labeled with a 1-based
`[Document i]` index; the raw query is the user message; with zero
retrieved chunks the context block is empty, the preamble still carries
the general-knowledge fallback instruction, and the answer operation
completes successfully. -/
theorem prompt_assembly (search : String → Int → List String)
    (invoke : List ChatMessage → String) (query : String) (k : Int) :
    (generateResponse search invoke query k).calls =
        [RagCall.retrieve query k,
          RagCall.generate
            [ChatMessage.system (systemPrompt (buildContext (search query k))),
              ChatMessage.human query]] ∧
      (∀ docs : List String, ∀ i : Nat, (h : i < docs.length) →
        (labeledChunks docs)[i]? =
          some ("[Document " ++ toString (i + 1) ++ "]\n" ++ docs[i])) ∧
      buildContext [] = "" ∧
      (∀ c : String, ∃ a b : String,
        systemPrompt c = a ++ generalKnowledgeFallback ++ b) ∧
      (generateResponse search invoke query k).result =
        Except.ok (invoke
          [ChatMessage.system (systemPrompt (buildContext (search query k))),
            ChatMessage.human query]) := by
  refine ⟨rfl, ?_, rfl, ?_, rfl⟩
  · intro docs i h
    exact labeledChunks_getElem docs i h
  · intro c
    refine ⟨preambleIntro, contextHeader ++ c ++ promptClose, ?_⟩
    simp [systemPrompt, String.append_assoc]

theorem prompt_assembly_witness :
    (generateResponse stubSearch stubInvoke scenarioQuery 1).result =
        Except.ok "Paris" ∧
      buildContext [] = "" ∧
      (labeledChunks scenarioKnowledgeBase)[0]? =
        some ("[Document " ++ toString (0 + 1) ++ "]\n" ++
          "Paris is the capital of France.") := by
  have h := prompt_assembly stubSearch stubInvoke scenarioQuery 1
  exact ⟨h.2.2.2.2, h.2.2.1, h.2.1 scenarioKnowledgeBase 0 (by decide)⟩

/-- Claim C8 counterexample: with an existing but corrupt/unreadable
index, the initialization path does not receive a distinguishable absent
signal and does not build fresh — `FaissStore.load` rejects unguarded and
the attempt fails with no vector store. -/
theorem load_fallback_counterexample :
    loadPathSignal true false = LoadSignal.fatal ∧
      loadPathSignal true false ≠ claimedLoadSignal true false ∧
      (doInitialize envCorruptIndex initialRagState).2 =
        Except.error InitStep.loadVectorStore ∧
      (doInitialize envCorruptIndex initialRagState).1.vectorStore = none := by
  exact ⟨rfl, by decide, rfl, rfl⟩

/-- Claim C8 (amended): a missing index file is signalled as the absent
condition (detected by the existence check) and initialization builds the
store fresh from documents; an existing but corrupt/unreadable index,
however, fails the initialization attempt; only the standalone
`initializeVectorStore` helper degrades a load error to a new empty
store. -/
theorem load_fallback_amended (env : InitEnv) (s : RagState) :
    (env.indexFileExists = false →
        loadPathSignal env.indexFileExists env.loadOk = LoadSignal.absent) ∧
      (env.indexFileExists = false → env.modelLoadOk = true →
        env.embeddingsOk = true → env.docsLoadOk = true → 0 < env.docCount →
        env.buildOk = true → (doInitialize env s).2 = Except.ok ()) ∧
      (env.indexFileExists = true → env.loadOk = false → env.modelLoadOk = true →
        env.embeddingsOk = true →
        (doInitialize env s).2 = Except.error InitStep.loadVectorStore) ∧
      initializeVectorStore true false = StoreInitOutcome.createdNewEmpty := by
  refine ⟨?_, ?_, ?_, rfl⟩
  · intro hix
    simp [loadPathSignal, hix]
  · intro hix hm he hd hdc hb
    simp [doInitialize, hm, he, hix, hd, hdc, hb]
  · intro hix hlo hm he
    simp [doInitialize, hm, he, hix, hlo]

theorem load_fallback_amended_witness :
    (doInitialize envCorruptIndex initialRagState).2 =
        Except.error InitStep.loadVectorStore ∧
      initializeVectorStore true false = StoreInitOutcome.createdNewEmpty :=
  ⟨(load_fallback_amended envCorruptIndex initialRagState).2.2.1 rfl rfl rfl rfl,
    (load_fallback_amended envCorruptIndex initialRagState).2.2.2⟩

/-- Claim C10: a streaming request whose `topK` is omitted, `undefined`,
`null` or `0` uses the configured default (the parsed `TOP_K` environment
value, `3` when unset); any nonzero requested value is used as-is, so
with a nonzero default a caller can never make retrieval run with
`k = 0`. -/
theorem topK_default_fallback (d : Int) (r : Option Int) :
    effectiveTopK none d = d ∧
      effectiveTopK (some 0) d = d ∧
      (∀ k : Int, k ≠ 0 → effectiveTopK (some k) d = k) ∧
      configTopK none = some 3 ∧
      (d ≠ 0 → effectiveTopK r d ≠ 0) := by
  refine ⟨rfl, rfl, ?_, rfl, ?_⟩
  · intro k hk
    simp [effectiveTopK, hk]
  · intro hd
    cases r with
    | none => exact hd
    | some k =>
      by_cases hk : k = 0
      · subst hk; simpa [effectiveTopK] using hd
      · simp [effectiveTopK, hk]

theorem topK_default_fallback_witness :
    effectiveTopK (some 0) 3 = 3 ∧ effectiveTopK (some 0) 3 ≠ 0 ∧
      configTopK none = some 3 :=
  ⟨(topK_default_fallback 3 (some 0)).2.1,
    (topK_default_fallback 3 (some 0)).2.2.2.2 (by decide),
    (topK_default_fallback 3 (some 0)).2.2.2.1⟩

end LlmRag
